import Mathlib

/-!
Verification of the outfit-completion recommendation engine
(contextual-shopping-agent, `agent/main.go`).

The Go code is shallowly embedded:
* `float64` money/distance values are embedded as `ℚ` (exact field
  arithmetic; the code performs no float-specific operations on them
  beyond `math.Exp`, `math.Round` and division);
* the similarity score `math.Exp(-distance) * 100` is embedded over `ℝ`
  via `Real.exp`;
* Go slices that the code distinguishes from `nil` (a nil slice
  serializes to JSON `null`, a non-nil empty slice to `[]`) are embedded
  as `GoSlice α := Option (List α)`, with `none` playing the role of the
  nil slice; `append` and `len` follow Go semantics;
* external collaborators (the OpenAI embedding HTTP call's parsed body,
  the pgvector store query, the chat completion call, and the standard
  library JSON encode/decode) are parameters of the embedded functions;
  the repository's own logic around them (the "no embedding returned"
  check, row scanning, score computation, fence stripping, fallback) is
  embedded from the source.
-/

/-- Go slice of `α`: `none` is the nil slice (JSON `null`),
`some l` a non-nil slice with elements `l` (JSON array). -/
abbrev GoSlice (α : Type) : Type := Option (List α)

/-- Elements of a Go slice; `len` of a nil slice is 0, matching Go. -/
def GoSlice.toList {α : Type} (s : GoSlice α) : List α := s.getD []

/-- Go `append(s, x)`: appending to a nil slice yields a non-nil slice. -/
def GoSlice.push {α : Type} (s : GoSlice α) (x : α) : GoSlice α :=
  some (s.toList ++ [x])

/-- Whether a Go `(value, err)` return carries a non-nil error. -/
def isErr {ε α : Type} : Except ε α → Bool
  | .error _ => true
  | .ok _ => false

/-- Go `requiredSlots` (main.go): mission → required slot list.
The Go `switch` with a `default` falling back to the smart_casual table. -/
def requiredSlots (mission : String) : List String :=
  if mission = "business_casual" then ["top", "bottom", "shoes"]
  else if mission = "outdoor_rain" then ["outerwear", "bottom", "shoes"]
  else ["top", "bottom", "shoes"]

/-- Go `missingSlots` (main.go): required slots not present in the cart, in
required order.  The Go code builds a `map[string]bool` from `present`
and keeps `r` iff `!set[r]`; map membership is list membership.  The
result slice starts as `var missing []string` (nil) and grows by
`append`, so it is nil exactly when nothing is missing. -/
def missingSlots (required present : List String) : GoSlice String :=
  required.foldl (fun acc r => if present.contains r then acc else acc.push r) none

/-- Go `nullInt` (main.go): SQL NULL for non-positive ints. -/
def nullInt (v : ℤ) : Option ℤ := if v ≤ 0 then none else some v

/-- Go `nullNum` (main.go): SQL NULL for non-positive numbers. -/
def nullNum (v : ℚ) : Option ℚ := if v ≤ 0 then none else some v

/-- Go `nullText` (main.go): SQL NULL for the empty string. -/
def nullText (s : String) : Option String := if s = "" then none else some s

/-- Go `math.Round`: round half away from zero, as an integer result. -/
def mathRound (x : ℚ) : ℤ := if x < 0 then -⌊-x + 1/2⌋ else ⌊x + 1/2⌋

/-- Go `math.Round(x*100)/100` (main.go, searchHits): distance rounded to
two decimals for display. -/
def roundCents (x : ℚ) : ℚ := (mathRound (x * 100) : ℚ) / 100

/-- Go `fmt` `%.2f` on an embedded float: two-decimal rendering.
(Go rounds ties to even at the binary-float level; on the exact
rationals of the embedding we round half away from zero — the two agree
except on exact half-cent values, and no theorem below inspects digits.) -/
def fmtF2 (q : ℚ) : String :=
  let n := mathRound (q * 100)
  let sign := if n < 0 then "-" else ""
  let m := n.natAbs
  sign ++ toString (m / 100) ++ "." ++ (if m % 100 < 10 then "0" else "") ++ toString (m % 100)

/-- Go `fmt` `%v` on a `[]string`: `[a b c]`; nil and empty both print `[]`. -/
def fmtStrSlice (s : GoSlice String) : String :=
  "[" ++ String.intercalate " " s.toList ++ "]"

/-- The similarity score of `searchHits` (main.go): `math.Exp(-distance) * 100`. -/
noncomputable def simScore (d : ℚ) : ℝ := Real.exp (-(d : ℝ)) * 100

/-- One row scanned from the pgvector store query
(product_id, title, thumbnail, eco_score, price_gbp, distance). -/
structure Row where
  productID : String
  title : String
  thumbnail : String
  ecoScore : ℤ
  priceGBP : ℚ
  distance : ℚ
deriving Repr, DecidableEq

/-- Go `Hit` (main.go). -/
structure Hit where
  productID : String
  title : String
  thumbnail : String
  ecoScore : ℤ
  priceGBP : ℚ
  distance : ℚ
  similarity : ℝ
  reason : String

/-- Go `SlotRecs` (main.go): one per-slot result. -/
structure SlotRecs where
  slot : String
  hits : GoSlice Hit
  reason : String

/-- Go `CompleteOutfitResp` (main.go). -/
structure CompleteOutfitResp where
  missingSlots : GoSlice String
  results : GoSlice SlotRecs

/-- Go `CompleteOutfitReq` (main.go).  `cartSlots` is only ever read for
membership, so it is embedded as a bare list. -/
structure CompleteOutfitReq where
  mission : String
  budgetGBP : ℚ
  minEcoScore : ℤ
  cartSlots : List String
  limitPerSlot : ℤ

/-- The parsed body of the OpenAI embeddings HTTP call, as the embedded
collaborator: an error (network failure, non-2xx status, or JSON decode
failure) or the decoded `data[*].embedding` lists. -/
abbrev EmbedFn : Type := String → Except String (List (List ℚ))

/-- The filters and limit handed to the pgvector query in `searchHits`
(main.go): query vector, `LIMIT $2`, and the three nullable filters. -/
structure StoreQuery where
  qVec : List ℚ
  limit : ℤ
  minEco : Option ℤ
  maxPrice : Option ℚ
  category : Option String

/-- The pgvector store as the embedded collaborator: rows ordered by
ascending distance, or a query/scan error.  (The SQL-literal encoding
`vectorLiteral` is absorbed into this boundary.) -/
abbrev StoreFn : Type := StoreQuery → Except String (List Row)

/-- Go `openAIEmbed` (main.go), from the parsed response body onward: an
upstream error propagates; `len(parsed.Data) == 0` is the
"no embedding returned" error; otherwise `parsed.Data[0].Embedding`. -/
def openAIEmbed (raw : Except String (List (List ℚ))) : Except String (List ℚ) :=
  match raw with
  | .error e => .error e
  | .ok [] => .error "no embedding returned"
  | .ok (v :: _) => .ok v

/-- The row-scan loop body of `searchHits` (main.go): similarity is
computed from the scanned (unrounded) distance, then the distance field
is rounded to two decimals for display. -/
noncomputable def rowToHit (r : Row) : Hit :=
  { productID := r.productID
    title := r.title
    thumbnail := r.thumbnail
    ecoScore := r.ecoScore
    priceGBP := r.priceGBP
    distance := roundCents r.distance
    similarity := simScore r.distance
    reason := "" }

/-- The `var hits []Hit` / `append` loop of `searchHits` (main.go):
nil when no row was scanned. -/
noncomputable def scanRows (rows : List Row) : GoSlice Hit :=
  rows.foldl (fun acc r => acc.push (rowToHit r)) none

/-- Go `searchHits` (main.go): embed the query text, query the store with
the nullable filters, scan rows into hits.  Either collaborator failure
aborts with an error and no hits (the Go early `return nil, err`). -/
noncomputable def searchHits (embed : EmbedFn) (store : StoreFn) (query : String)
    (limit : ℤ) (maxPrice : ℚ) (minEco : ℤ) (category : String) :
    Except String (GoSlice Hit) :=
  match openAIEmbed (embed query) with
  | .error e => .error e
  | .ok qEmb =>
    match store ⟨qEmb, limit, nullInt minEco, nullNum maxPrice, nullText category⟩ with
    | .error e => .error e
    | .ok rows => .ok (scanRows rows)

/-- The zero-hit reason string of `runCompleteOutfit` (main.go). -/
def zeroHitReason (slot : String) (slotBudget : ℚ) (minEco : ℤ) : String :=
  "No products satisfy constraints for slot=" ++ slot ++ " (slotBudget<=£"
    ++ fmtF2 slotBudget ++ ", minEco=" ++ toString minEco ++ ")."

/-- The per-hit rationale string of `runCompleteOutfit` (main.go). -/
def hitRationale (slot : String) (eco : ℤ) (price slotBudget : ℚ) : String :=
  "Matches slot=" ++ slot ++ ". Eco=" ++ toString eco ++ ". Price=£"
    ++ fmtF2 price ++ " within slot budget £" ++ fmtF2 slotBudget ++ "."

/-- The per-slot budget computation of `runCompleteOutfit` (main.go):
`perSlotBudget := req.BudgetGBP`, reassigned to the equal split only when
slots are missing and the budget is positive. -/
def perSlotBudgetOf (budget : ℚ) (missingCount : ℕ) : ℚ :=
  if 0 < missingCount ∧ 0 < budget then budget / (missingCount : ℚ) else budget

/-- The `LimitPerSlot` normalization of `runCompleteOutfit` (main.go):
default 3 when non-positive. -/
def limitOf (l : ℤ) : ℤ := if l ≤ 0 then 3 else l

/-- One iteration of the per-slot loop in `runCompleteOutfit` (main.go):
build the query `"<mission> <slot>"`, search, replace a nil hit slice by
an empty one, and attach the reason / per-hit rationales. -/
noncomputable def processSlot (embed : EmbedFn) (store : StoreFn) (mission : String)
    (limit : ℤ) (slotBudget : ℚ) (minEco : ℤ) (slot : String) :
    Except String SlotRecs :=
  match searchHits embed store (mission ++ " " ++ slot) limit slotBudget minEco slot with
  | .error e => .error e
  | .ok hits0 =>
    let hits : GoSlice Hit := if hits0.isNone then some [] else hits0
    if hits.toList.length = 0 then
      .ok ⟨slot, hits, zeroHitReason slot slotBudget minEco⟩
    else
      .ok ⟨slot,
        some (hits.toList.map fun h =>
          { h with reason := hitRationale slot h.ecoScore h.priceGBP slotBudget }),
        ""⟩

/-- The `for _, slot := range missing` loop of `runCompleteOutfit`
(main.go): the first search failure aborts the whole composition. -/
noncomputable def outfitLoop (embed : EmbedFn) (store : StoreFn) (mission : String)
    (limit : ℤ) (slotBudget : ℚ) (minEco : ℤ) :
    List String → Except String (List SlotRecs)
  | [] => .ok []
  | slot :: rest =>
    match processSlot embed store mission limit slotBudget minEco slot with
    | .error e => .error e
    | .ok sr =>
      match outfitLoop embed store mission limit slotBudget minEco rest with
      | .error e => .error e
      | .ok rs => .ok (sr :: rs)

/-- Go `runCompleteOutfit` (main.go).  `Results` starts as
`make([]SlotRecs, 0, len(missing))`, hence is non-nil even when nothing
is missing. -/
noncomputable def runCompleteOutfit (embed : EmbedFn) (store : StoreFn)
    (req : CompleteOutfitReq) : Except String CompleteOutfitResp :=
  match outfitLoop embed store req.mission (limitOf req.limitPerSlot)
      (perSlotBudgetOf req.budgetGBP
        (missingSlots (requiredSlots req.mission) req.cartSlots).toList.length)
      req.minEcoScore
      (missingSlots (requiredSlots req.mission) req.cartSlots).toList with
  | .error e => .error e
  | .ok rs => .ok ⟨missingSlots (requiredSlots req.mission) req.cartSlots, some rs⟩

/-- The chat collaborator (`openAIChat`, main.go): generated text or an
upstream error. -/
abbrev ChatFn : Type := String → Except String String

/-- Go `encoding/json.Unmarshal` into a `[]string` or into the `bullets`
wrapper, as embedded collaborators: `some l` is a nil-error decode
yielding `l` (`nil` decodes to `some []`), `none` a decode error. -/
abbrev DecodeFn : Type := String → Option (List String)

/-- Go `encoding/json.Marshal` of the response, as an embedded collaborator. -/
abbrev MarshalFn : Type := CompleteOutfitResp → String

/-- The code-fence stripping of `parseBullets` (main.go): if the trimmed
text starts with a fence, drop through the first newline and truncate at
the last fence, then trim again. -/
def stripFence (raw : String) : String :=
  let s := raw.trim
  if s.startsWith "```" then
    let s :=
      match s.splitOn "\n" with
      | [] => s
      | [_] => s
      | _ :: rest => String.intercalate "\n" rest
    let s :=
      let parts := s.splitOn "```"
      match parts with
      | [] => s
      | [_] => s
      | _ => String.intercalate "```" parts.dropLast
    s.trim
  else s

/-- Go `parseBullets` (main.go): strip fences, try a direct string array,
then the `bullets` wrapper; each succeeds only on a non-empty list. -/
def parseBullets (decodeArr decodeWrap : DecodeFn) (raw : String) :
    Except String (List String) :=
  match decodeArr (stripFence raw) with
  | some bullets =>
    if bullets.length > 0 then .ok bullets
    else match decodeWrap (stripFence raw) with
      | some wrapped => if wrapped.length > 0 then .ok wrapped
          else .error ("invalid explain JSON: " ++ raw)
      | none => .error ("invalid explain JSON: " ++ raw)
  | none => match decodeWrap (stripFence raw) with
    | some wrapped => if wrapped.length > 0 then .ok wrapped
        else .error ("invalid explain JSON: " ++ raw)
    | none => .error ("invalid explain JSON: " ++ raw)

/-- The fixed prompt of `openAIExplain` (main.go), around the marshalled
response.  (Reproduced only up to whitespace details; no theorem below
inspects it.) -/
def explainPrompt (marshal : MarshalFn) (resp : CompleteOutfitResp) : String :=
  "\nYou are a precise shopping assistant.\n\nGiven this JSON result, write 3-5 concise bullet points explaining the selection.\n\nRules: ... \n\nINPUT_JSON:\n" ++ marshal resp ++ "\n"

/-- Go `openAIExplain` (main.go): chat on the prompt, parse bullets,
truncate to 5. -/
def openAIExplain (chat : ChatFn) (decodeArr decodeWrap : DecodeFn)
    (marshal : MarshalFn) (resp : CompleteOutfitResp) :
    Except String (List String) :=
  match chat (explainPrompt marshal resp) with
  | .error e => .error e
  | .ok raw =>
    match parseBullets decodeArr decodeWrap raw with
    | .error e => .error e
    | .ok bullets => .ok (if bullets.length > 5 then bullets.take 5 else bullets)

/-- The untruncated fallback bullet list of `fallbackExplain` (main.go):
missing-slots line, fixed method line, then one line per slot result. -/
def fallbackLines (resp : CompleteOutfitResp) : List String :=
  ["Missing slots detected: " ++ fmtStrSlice resp.missingSlots ++ ".",
   "Items were retrieved by semantic similarity for each slot, then filtered by price and eco constraints."]
  ++ resp.results.toList.map fun r =>
    match r.hits.toList with
    | [] => "No results for " ++ r.slot ++ ": " ++ r.reason
    | h :: _ =>
      "Top " ++ r.slot ++ " pick fits constraints: Eco=" ++ toString h.ecoScore
        ++ ", Price=£" ++ fmtF2 h.priceGBP ++ "."

/-- Go `fallbackExplain` (main.go): the fallback bullets, truncated to 5. -/
def fallbackExplain (resp : CompleteOutfitResp) : List String :=
  if (fallbackLines resp).length > 5 then (fallbackLines resp).take 5
  else fallbackLines resp

/-- The `anyHits` scan of `explainOutfitWithFallback` (main.go). -/
def anyHitsB (resp : CompleteOutfitResp) : Bool :=
  resp.results.toList.any fun r => r.hits.toList.length > 0

/-- Go `explainOutfitWithFallback` (main.go): deterministic fallback when no
slot has hits; otherwise try the collaborator, falling back on error or
zero bullets.  Every path returns a nil error. -/
def explainOutfitWithFallback (chat : ChatFn) (decodeArr decodeWrap : DecodeFn)
    (marshal : MarshalFn) (resp : CompleteOutfitResp) :
    Except String (List String) :=
  if !anyHitsB resp then .ok (fallbackExplain resp)
  else
    match openAIExplain chat decodeArr decodeWrap marshal resp with
    | .error _ => .ok (fallbackExplain resp)
    | .ok bullets =>
      if bullets.length = 0 then .ok (fallbackExplain resp) else .ok bullets

/-! ## Concrete collaborators, requests and rows used by the witnesses -/

/-- A provider answering every query with the one-dimensional vector `[1]`. -/
def embedW : EmbedFn := fun _ => .ok [[1]]

/-- A provider whose HTTP call always fails. -/
def embedBadW : EmbedFn := fun _ => .error "boom"

/-- A store that finds no rows for any query. -/
def storeEmptyW : StoreFn := fun _ => .ok []

/-- One concrete scanned row at distance 1. -/
def rowW : Row := ⟨"p1", "Tee", "thumb", 80, 30, 1⟩

/-- A store that finds exactly `rowW` for any query. -/
def storeOneW : StoreFn := fun _ => .ok [rowW]

/-- A chat collaborator that always fails. -/
def chatBadW : ChatFn := fun _ => .error "down"

/-- A JSON decode that always fails. -/
def decodeNoneW : DecodeFn := fun _ => none

/-- A trivial marshaller. -/
def marshalW : MarshalFn := fun _ => ""

/-- A response whose single Slot Result has zero hits. -/
def respEmptyW : CompleteOutfitResp := ⟨some ["top"], some [⟨"top", some [], "r"⟩]⟩

/-- The section-8 example request of the spec: business_casual, £90,
eco floor 50, top already in the cart. -/
def reqW1 : CompleteOutfitReq := ⟨"business_casual", 90, 50, ["top"], 2⟩

/-- A request with an empty cart. -/
def reqW2 : CompleteOutfitReq := ⟨"smart_casual", 0, 0, [], 0⟩

/-- A request whose cart already covers every required slot. -/
def reqFullW : CompleteOutfitReq := ⟨"smart_casual", 100, 0, ["shoes", "top", "bottom"], 0⟩

/-- The response `runCompleteOutfit` computes for `reqW1` against
`embedW`/`storeEmptyW`: per-slot budget £45, zero hits per slot. -/
def respW1 : CompleteOutfitResp :=
  ⟨some ["bottom", "shoes"],
   some [⟨"bottom", some [], zeroHitReason "bottom" (perSlotBudgetOf 90 2) 50⟩,
         ⟨"shoes", some [], zeroHitReason "shoes" (perSlotBudgetOf 90 2) 50⟩]⟩

/-! ## Helper lemmas -/

theorem GoSlice.toList_push {α : Type} (s : GoSlice α) (x : α) :
    (s.push x).toList = s.toList ++ [x] := rfl

theorem missingSlots_foldl (present : List String) (required : List String)
    (acc : GoSlice String) :
    (required.foldl
        (fun acc r => if present.contains r then acc else acc.push r) acc).toList
      = acc.toList ++ required.filter (fun r => !present.contains r) := by
  induction required generalizing acc with
  | nil => simp
  | cons r rest ih =>
    cases hc : present.contains r with
    | true =>
      rw [List.foldl_cons, if_pos hc, ih, List.filter_cons, hc]
      simp
    | false =>
      rw [List.foldl_cons, if_neg (by rw [hc]; exact Bool.false_ne_true), ih,
        GoSlice.toList_push,
        List.filter_cons, hc]
      simp

/-- The elements computed by `missingSlots` are exactly the required
slots filtered by cart membership. -/
theorem missingSlots_toList (required present : List String) :
    (missingSlots required present).toList
      = required.filter (fun r => !present.contains r) := by
  unfold missingSlots
  rw [missingSlots_foldl]
  simp [GoSlice.toList]

theorem missingSlots_eq_none (required present : List String)
    (h : ∀ r ∈ required, present.contains r) :
    missingSlots required present = none := by
  unfold missingSlots
  induction required with
  | nil => rfl
  | cons r rest ih =>
    rw [List.foldl_cons, if_pos (h r (List.mem_cons_self r rest))]
    exact ih fun x hx => h x (List.mem_cons_of_mem r hx)

theorem requiredSlots_nodup (mission : String) : (requiredSlots mission).Nodup := by
  unfold requiredSlots
  split
  · decide
  · split <;> decide

/-! ## Claims about the Slot Resolver -/

/-- C6: every mission other than `business_casual` and `outdoor_rain`
takes the `default` branch of the Go `switch`, so `requiredSlots`
returns the `smart_casual` slot list. -/
theorem requiredSlots_fallback (mission : String)
    (h1 : mission ≠ "business_casual") (h2 : mission ≠ "outdoor_rain") :
    requiredSlots mission = requiredSlots "smart_casual" := by
  unfold requiredSlots
  rw [if_neg h1, if_neg h2]
  decide

theorem requiredSlots_fallback_witness :
    requiredSlots "beach_party" = requiredSlots "smart_casual" :=
  requiredSlots_fallback "beach_party" (by decide) (by decide)

/-- C5 counterexample: `missingSlots` quantified over every `required`
list does not guarantee a duplicate-free output — a duplicated required
slot is emitted twice.  (The claim's no-duplicates part fails as stated;
it holds whenever `required` itself has no duplicates, which is the case
for every `requiredSlots` output.) -/
theorem missingSlots_dup_counterexample :
    ¬ (missingSlots ["top", "top"] []).toList.Nodup := by decide

/-- C5 (amended): `missingSlots` returns exactly the required slots not
present in the cart, in required order; slots in the cart never appear
(regardless of duplicate cart entries); and the output is duplicate-free
whenever the required list is (as every `requiredSlots` output is). -/
theorem missingSlots_spec (required present : List String) :
    (missingSlots required present).toList
        = required.filter (fun r => !present.contains r)
      ∧ (∀ s ∈ present, s ∉ (missingSlots required present).toList)
      ∧ (required.Nodup → (missingSlots required present).toList.Nodup) := by
  refine ⟨missingSlots_toList required present, ?_, ?_⟩
  · intro s hs hmem
    rw [missingSlots_toList] at hmem
    have hp := List.of_mem_filter hmem
    simp [hs] at hp
  · intro hnd
    rw [missingSlots_toList]
    exact hnd.filter _

theorem missingSlots_spec_witness :
    (missingSlots ["top", "bottom"] ["top", "top"]).toList = ["bottom"]
      ∧ "top" ∉ (missingSlots ["top", "bottom"] ["top", "top"]).toList
      ∧ (missingSlots ["top", "bottom"] ["top", "top"]).toList.Nodup :=
  ⟨(missingSlots_spec ["top", "bottom"] ["top", "top"]).1.trans (by decide),
   (missingSlots_spec ["top", "bottom"] ["top", "top"]).2.1 "top" (by decide),
   (missingSlots_spec ["top", "bottom"] ["top", "top"]).2.2 (by decide)⟩

/-! ## Claims about the Budget Allocator -/

/-- C3: the per-slot budget used by `runCompleteOutfit` is the exact
equal split `B / N` when `N > 0` missing slots and total budget `B > 0`
(`float64` arithmetic embedded as exact rationals; the code performs no
rounding here), and for `B = 0` the per-slot budget stays `0`, which
`nullNum` downstream still maps to the "no price ceiling" NULL filter. -/
theorem perSlotBudget_spec (B : ℚ) (N : ℕ) :
    (0 < N → 0 < B → perSlotBudgetOf B N = B / (N : ℚ))
      ∧ perSlotBudgetOf 0 N = 0
      ∧ nullNum (perSlotBudgetOf 0 N) = none := by
  refine ⟨fun hN hB => ?_, ?_, ?_⟩
  · unfold perSlotBudgetOf
    rw [if_pos ⟨hN, hB⟩]
  · unfold perSlotBudgetOf
    simp
  · unfold perSlotBudgetOf
    simp [nullNum]

theorem processSlot_ok_fields (embed : EmbedFn) (store : StoreFn) (mission : String)
    (limit : ℤ) (slotBudget : ℚ) (minEco : ℤ) (slot : String) (sr : SlotRecs)
    (h : processSlot embed store mission limit slotBudget minEco slot = .ok sr) :
    sr.slot = slot ∧ sr.hits.isSome = true := by
  unfold processSlot at h
  cases hs : searchHits embed store (mission ++ " " ++ slot) limit slotBudget minEco slot with
  | error e => rw [hs] at h; exact Except.noConfusion h
  | ok hits0 =>
    rw [hs] at h
    cases hits0 with
    | none =>
      have h2 := Except.ok.inj h
      rw [← h2]
      exact ⟨rfl, rfl⟩
    | some l =>
      cases l with
      | nil =>
        have h2 := Except.ok.inj h
        rw [← h2]
        exact ⟨rfl, rfl⟩
      | cons x t =>
        have h2 := Except.ok.inj h
        rw [← h2]
        exact ⟨rfl, rfl⟩

theorem processSlot_ok_search (embed : EmbedFn) (store : StoreFn) (mission : String)
    (limit : ℤ) (slotBudget : ℚ) (minEco : ℤ) (slot : String) (sr : SlotRecs)
    (h : processSlot embed store mission limit slotBudget minEco slot = .ok sr) :
    isErr (searchHits embed store (mission ++ " " ++ slot) limit slotBudget minEco slot)
      = false := by
  unfold processSlot at h
  cases hs : searchHits embed store (mission ++ " " ++ slot) limit slotBudget minEco slot with
  | error e => rw [hs] at h; exact Except.noConfusion h
  | ok hits0 => rfl

theorem outfitLoop_ok_fields (embed : EmbedFn) (store : StoreFn) (mission : String)
    (limit : ℤ) (slotBudget : ℚ) (minEco : ℤ) (slots : List String)
    (rs : List SlotRecs)
    (h : outfitLoop embed store mission limit slotBudget minEco slots = .ok rs) :
    rs.map SlotRecs.slot = slots ∧ ∀ r ∈ rs, r.hits.isSome = true := by
  induction slots generalizing rs with
  | nil =>
    unfold outfitLoop at h
    cases h
    exact ⟨rfl, by simp⟩
  | cons slot rest ih =>
    unfold outfitLoop at h
    cases hp : processSlot embed store mission limit slotBudget minEco slot with
    | error e => rw [hp] at h; exact Except.noConfusion h
    | ok sr =>
      rw [hp] at h
      cases hl : outfitLoop embed store mission limit slotBudget minEco rest with
      | error e => rw [hl] at h; exact Except.noConfusion h
      | ok rs2 =>
        rw [hl] at h
        cases h
        obtain ⟨hslot, hsome⟩ :=
          processSlot_ok_fields embed store mission limit slotBudget minEco slot sr hp
        obtain ⟨hmap, hall⟩ := ih rs2 hl
        refine ⟨by simp [hslot, hmap], ?_⟩
        intro r hr
        rcases List.mem_cons.mp hr with h | h
        · rw [h]; exact hsome
        · exact hall r h

theorem outfitLoop_err_of_mem (embed : EmbedFn) (store : StoreFn) (mission : String)
    (limit : ℤ) (slotBudget : ℚ) (minEco : ℤ) (slots : List String) (slot : String)
    (hmem : slot ∈ slots)
    (hfail : isErr (searchHits embed store (mission ++ " " ++ slot) limit slotBudget
      minEco slot) = true) :
    isErr (outfitLoop embed store mission limit slotBudget minEco slots) = true := by
  induction slots with
  | nil => cases hmem
  | cons a rest ih =>
    unfold outfitLoop
    cases hp : processSlot embed store mission limit slotBudget minEco a with
    | error e => rfl
    | ok sr =>
      rcases List.mem_cons.mp hmem with heq | hmem2
      · subst heq
        have hok := processSlot_ok_search embed store mission limit slotBudget minEco _ sr hp
        rw [hfail] at hok
        exact Bool.noConfusion hok
      · cases hl : outfitLoop embed store mission limit slotBudget minEco rest with
        | error e => rfl
        | ok rs =>
          have hih := ih hmem2
          rw [hl] at hih
          exact Bool.noConfusion hih

/-! ## Claims about the Outfit Composer -/

/-- C1: whenever `runCompleteOutfit` succeeds, the Slot Results carry
exactly the missing slots, one each, in the missing-slots order (so no
duplicates and no omissions; the missing list itself is duplicate-free
since every `requiredSlots` table is). -/
theorem runCompleteOutfit_slot_alignment (embed : EmbedFn) (store : StoreFn)
    (req : CompleteOutfitReq) (resp : CompleteOutfitResp)
    (h : runCompleteOutfit embed store req = .ok resp) :
    resp.results.toList.map SlotRecs.slot = resp.missingSlots.toList
      ∧ resp.missingSlots.toList.Nodup := by
  unfold runCompleteOutfit at h
  cases hl : outfitLoop embed store req.mission (limitOf req.limitPerSlot)
      (perSlotBudgetOf req.budgetGBP
        (missingSlots (requiredSlots req.mission) req.cartSlots).toList.length)
      req.minEcoScore
      (missingSlots (requiredSlots req.mission) req.cartSlots).toList with
  | error e => rw [hl] at h; exact Except.noConfusion h
  | ok rs =>
    rw [hl] at h
    cases h
    refine ⟨?_, ?_⟩
    · exact (outfitLoop_ok_fields embed store req.mission _ _ _ _ rs hl).1
    · rw [missingSlots_toList]
      exact (requiredSlots_nodup req.mission).filter _

/-- C7: in every successful `runCompleteOutfit` response, each Slot
Result's hit slice is non-nil (the `hits == nil` branch replaces it by
the empty non-nil slice, which serializes as `[]`, not `null`). -/
theorem runCompleteOutfit_hits_not_nil (embed : EmbedFn) (store : StoreFn)
    (req : CompleteOutfitReq) (resp : CompleteOutfitResp)
    (h : runCompleteOutfit embed store req = .ok resp) :
    ∀ r ∈ resp.results.toList, r.hits.isSome = true := by
  unfold runCompleteOutfit at h
  cases hl : outfitLoop embed store req.mission (limitOf req.limitPerSlot)
      (perSlotBudgetOf req.budgetGBP
        (missingSlots (requiredSlots req.mission) req.cartSlots).toList.length)
      req.minEcoScore
      (missingSlots (requiredSlots req.mission) req.cartSlots).toList with
  | error e => rw [hl] at h; exact Except.noConfusion h
  | ok rs =>
    rw [hl] at h
    cases h
    exact (outfitLoop_ok_fields embed store req.mission _ _ _ _ rs hl).2

/-- C2 counterexample: the claim's failure condition "the Embedding
Provider errors or returns an empty vector" does not always make
`searchHits` fail: `openAIEmbed` only rejects a response with no
embedding data (`len(parsed.Data) == 0`); a response whose first datum
is an empty vector yields `.ok []`, which `searchHits` passes to the
store unchecked, and with a store that answers the query the search
succeeds. -/
theorem searchHits_emptyVec_counterexample :
    ¬ (∀ (embed : EmbedFn) (store : StoreFn) (q : String) (lim : ℤ) (mp : ℚ)
        (me : ℤ) (cat : String),
        ((∃ e, embed q = .error e) ∨ openAIEmbed (embed q) = .ok []) →
        isErr (searchHits embed store q lim mp me cat) = true) := by
  intro hcl
  have h := hcl (fun _ => .ok [[]]) (fun _ => .ok []) "smart_casual top" 3 0 0 "top"
    (Or.inr rfl)
  exact Bool.noConfusion h

/-- C2 (amended): `searchHits` fails with an error and no hits whenever
the Embedding Provider call errors or its parsed response carries no
embedding data (the code's "no embedding returned" check; an empty
vector inside the first datum is not checked and goes to the store);
and a failing per-slot search makes `runCompleteOutfit` fail with an
error, returning no partial per-slot results. -/
theorem searchHits_failure_aborts (embed : EmbedFn) (store : StoreFn) :
    (∀ (q : String) (lim : ℤ) (mp : ℚ) (me : ℤ) (cat : String),
        ((∃ e, embed q = .error e) ∨ embed q = .ok []) →
        isErr (searchHits embed store q lim mp me cat) = true)
      ∧ ∀ req : CompleteOutfitReq,
          (∃ slot ∈ (missingSlots (requiredSlots req.mission) req.cartSlots).toList,
            isErr (searchHits embed store (req.mission ++ " " ++ slot)
              (limitOf req.limitPerSlot)
              (perSlotBudgetOf req.budgetGBP
                (missingSlots (requiredSlots req.mission) req.cartSlots).toList.length)
              req.minEcoScore slot) = true) →
          isErr (runCompleteOutfit embed store req) = true := by
  constructor
  · intro q lim mp me cat h
    unfold searchHits
    rcases h with ⟨e, he⟩ | he <;> rw [he] <;> rfl
  · intro req hex
    obtain ⟨slot, hmem, hfail⟩ := hex
    unfold runCompleteOutfit
    have hloop := outfitLoop_err_of_mem embed store req.mission
      (limitOf req.limitPerSlot)
      (perSlotBudgetOf req.budgetGBP
        (missingSlots (requiredSlots req.mission) req.cartSlots).toList.length)
      req.minEcoScore
      (missingSlots (requiredSlots req.mission) req.cartSlots).toList
      slot hmem hfail
    cases hl : outfitLoop embed store req.mission (limitOf req.limitPerSlot)
        (perSlotBudgetOf req.budgetGBP
          (missingSlots (requiredSlots req.mission) req.cartSlots).toList.length)
        req.minEcoScore
        (missingSlots (requiredSlots req.mission) req.cartSlots).toList with
    | error e => rfl
    | ok rs =>
      rw [hl] at hloop
      exact Bool.noConfusion hloop

/-- C10: when every required slot is in the cart, `runCompleteOutfit`
succeeds for every embedding/store collaborator (so no search is even
consulted), with `MissingSlots` the nil slice (`missingSlots` never
appends, and a nil slice marshals to JSON `null`) and `Results` the
non-nil empty slice made by `make` (marshalling to `[]`). -/
theorem runCompleteOutfit_nothing_missing (embed : EmbedFn) (store : StoreFn)
    (req : CompleteOutfitReq)
    (h : ∀ s ∈ requiredSlots req.mission, s ∈ req.cartSlots) :
    runCompleteOutfit embed store req
      = .ok ⟨(none : GoSlice String), some ([] : List SlotRecs)⟩ := by
  unfold runCompleteOutfit
  rw [missingSlots_eq_none (requiredSlots req.mission) req.cartSlots
    (fun r hr => by simp [h r hr])]
  rfl

theorem goSlice_push_foldl {α β : Type} (f : α → β) (l : List α) (acc : GoSlice β) :
    (l.foldl (fun acc x => acc.push (f x)) acc).toList = acc.toList ++ l.map f := by
  induction l generalizing acc with
  | nil => simp
  | cons x rest ih =>
    rw [List.foldl_cons, ih, GoSlice.toList_push]
    simp

theorem scanRows_toList (rows : List Row) :
    (scanRows rows).toList = rows.map rowToHit := by
  unfold scanRows
  rw [goSlice_push_foldl]
  simp [GoSlice.toList]

/-! ## Claims about the Search Engine scoring -/

/-- C4: a successful `searchHits` returns exactly the scanned rows as
hits, and each hit's similarity is `exp(-distance) * 100` computed from
the row's unrounded distance while the hit's distance field is the
two-decimal rounding of it; moreover the score is in `(0, 100]` for
non-negative distance and strictly decreases as distance increases. -/
theorem searchHits_similarity (embed : EmbedFn) (store : StoreFn)
    (q : String) (lim : ℤ) (mp : ℚ) (me : ℤ) (cat : String) :
    (∀ (v : List ℚ) (rows : List Row),
        openAIEmbed (embed q) = .ok v →
        store ⟨v, lim, nullInt me, nullNum mp, nullText cat⟩ = .ok rows →
        searchHits embed store q lim mp me cat = .ok (scanRows rows)
          ∧ (scanRows rows).toList = rows.map rowToHit
          ∧ ∀ r ∈ rows, (rowToHit r).similarity = simScore r.distance
              ∧ (rowToHit r).distance = roundCents r.distance)
      ∧ (∀ d : ℚ, 0 ≤ d → 0 < simScore d ∧ simScore d ≤ 100)
      ∧ ∀ d₁ d₂ : ℚ, d₁ < d₂ → simScore d₂ < simScore d₁ := by
  refine ⟨fun v rows hv hs => ⟨?_, scanRows_toList rows, fun r _ => ⟨rfl, rfl⟩⟩,
    fun d hd => ⟨?_, ?_⟩, fun d₁ d₂ h => ?_⟩
  · simp only [searchHits, hv, hs]
  · exact mul_pos (Real.exp_pos _) (by norm_num)
  · have h1 : Real.exp (-(d : ℝ)) ≤ 1 := by
      rw [← Real.exp_zero]
      exact Real.exp_le_exp.mpr (neg_nonpos.mpr (by exact_mod_cast hd))
    unfold simScore
    nlinarith [h1]
  · have h1 : Real.exp (-(d₂ : ℝ)) < Real.exp (-(d₁ : ℝ)) := by
      refine Real.exp_lt_exp.mpr (neg_lt_neg ?_)
      exact_mod_cast h
    unfold simScore
    nlinarith [h1]

theorem parseBullets_ok_pos (decodeArr decodeWrap : DecodeFn) (raw : String)
    (bs : List String) (h : parseBullets decodeArr decodeWrap raw = .ok bs) :
    0 < bs.length := by
  unfold parseBullets at h
  cases hA : decodeArr (stripFence raw) with
  | some bullets =>
    rw [hA] at h
    dsimp only at h
    by_cases hb : bullets.length > 0
    · rw [if_pos hb] at h
      rw [← Except.ok.inj h]
      exact hb
    · rw [if_neg hb] at h
      cases hW : decodeWrap (stripFence raw) with
      | some wrapped =>
        rw [hW] at h
        dsimp only at h
        by_cases hw : wrapped.length > 0
        · rw [if_pos hw] at h
          rw [← Except.ok.inj h]
          exact hw
        · rw [if_neg hw] at h
          exact Except.noConfusion h
      | none => rw [hW] at h; exact Except.noConfusion h
  | none =>
    rw [hA] at h
    cases hW : decodeWrap (stripFence raw) with
    | some wrapped =>
      rw [hW] at h
      dsimp only at h
      by_cases hw : wrapped.length > 0
      · rw [if_pos hw] at h
        rw [← Except.ok.inj h]
        exact hw
      · rw [if_neg hw] at h
        exact Except.noConfusion h
    | none => rw [hW] at h; exact Except.noConfusion h

theorem openAIExplain_ok_bounds (chat : ChatFn) (decodeArr decodeWrap : DecodeFn)
    (marshal : MarshalFn) (resp : CompleteOutfitResp) (bs : List String)
    (h : openAIExplain chat decodeArr decodeWrap marshal resp = .ok bs) :
    1 ≤ bs.length ∧ bs.length ≤ 5 := by
  unfold openAIExplain at h
  cases hc : chat (explainPrompt marshal resp) with
  | error e => rw [hc] at h; exact Except.noConfusion h
  | ok raw =>
    rw [hc] at h
    dsimp only at h
    cases hp : parseBullets decodeArr decodeWrap raw with
    | error e => rw [hp] at h; exact Except.noConfusion h
    | ok bullets =>
      rw [hp] at h
      have hpos := parseBullets_ok_pos decodeArr decodeWrap raw bullets hp
      have h2 := Except.ok.inj h
      rw [← h2]
      split
      · simp only [List.length_take]
        omega
      · omega

theorem fallbackExplain_bounds (resp : CompleteOutfitResp) :
    2 ≤ (fallbackExplain resp).length ∧ (fallbackExplain resp).length ≤ 5
      ∧ fallbackExplain resp = (fallbackLines resp).take 5 := by
  have hlen : (fallbackLines resp).length = 2 + resp.results.toList.length := by
    unfold fallbackLines
    simp
    omega
  unfold fallbackExplain
  split
  · refine ⟨?_, ?_, rfl⟩ <;> simp only [List.length_take] <;> omega
  · exact ⟨by omega, by omega, (List.take_of_length_le (by omega)).symm⟩

/-! ## Claims about the Explanation Generator -/

/-- C8: when no Slot Result has hits, `explainOutfitWithFallback`
returns the deterministic fallback bullets; the language-generation
collaborator is quantified over, so the result is the same for every
collaborator (including an always-failing one) — it is never consulted. -/
theorem explainOutfit_allEmpty_fallback (chat : ChatFn) (decodeArr decodeWrap : DecodeFn)
    (marshal : MarshalFn) (resp : CompleteOutfitResp)
    (h : anyHitsB resp = false) :
    explainOutfitWithFallback chat decodeArr decodeWrap marshal resp
      = .ok (fallbackExplain resp) := by
  unfold explainOutfitWithFallback
  rw [h]
  rfl

/-- C9: `explainOutfitWithFallback` never returns an error
(language-generation failure, unparseable output and zero bullets all
fall back); every returned bullet list has between 1 and 5 entries; the
fallback itself has between 2 and 5 bullets (missing-slots line, method
line, then one line per slot) and is the earliest-first truncation of
the generated lines. -/
theorem explainOutfit_total (chat : ChatFn) (decodeArr decodeWrap : DecodeFn)
    (marshal : MarshalFn) (resp : CompleteOutfitResp) :
    isErr (explainOutfitWithFallback chat decodeArr decodeWrap marshal resp) = false
      ∧ (∀ bs, explainOutfitWithFallback chat decodeArr decodeWrap marshal resp = .ok bs →
          1 ≤ bs.length ∧ bs.length ≤ 5)
      ∧ 2 ≤ (fallbackExplain resp).length ∧ (fallbackExplain resp).length ≤ 5
      ∧ fallbackExplain resp = (fallbackLines resp).take 5 := by
  obtain ⟨hf2, hf5, hftake⟩ := fallbackExplain_bounds resp
  refine ⟨?_, ?_, hf2, hf5, hftake⟩
  · unfold explainOutfitWithFallback
    split
    · rfl
    · cases ho : openAIExplain chat decodeArr decodeWrap marshal resp with
      | error e => rfl
      | ok bullets =>
        dsimp only
        split <;> rfl
  · intro bs h
    unfold explainOutfitWithFallback at h
    split at h
    · have h2 := Except.ok.inj h
      rw [← h2]
      exact ⟨by omega, hf5⟩
    · cases ho : openAIExplain chat decodeArr decodeWrap marshal resp with
      | error e =>
        rw [ho] at h
        have h2 := Except.ok.inj h
        rw [← h2]
        exact ⟨by omega, hf5⟩
      | ok bullets =>
        rw [ho] at h
        dsimp only at h
        split at h
        · have h2 := Except.ok.inj h
          rw [← h2]
          exact ⟨by omega, hf5⟩
        · have h2 := Except.ok.inj h
          rw [← h2]
          exact openAIExplain_ok_bounds chat decodeArr decodeWrap marshal resp bullets ho

theorem runCompleteOutfit_slot_alignment_witness :
    respW1.results.toList.map SlotRecs.slot = respW1.missingSlots.toList
      ∧ respW1.missingSlots.toList.Nodup :=
  runCompleteOutfit_slot_alignment embedW storeEmptyW reqW1 respW1 rfl

theorem runCompleteOutfit_hits_not_nil_witness :
    (⟨"bottom", some [], zeroHitReason "bottom" (perSlotBudgetOf 90 2) 50⟩
      : SlotRecs).hits.isSome = true :=
  runCompleteOutfit_hits_not_nil embedW storeEmptyW reqW1 respW1 rfl _
    (List.mem_cons_self _ _)

theorem searchHits_failure_aborts_witness :
    isErr (searchHits embedBadW storeEmptyW "smart_casual top" 3 0 0 "top") = true
      ∧ isErr (runCompleteOutfit embedBadW storeEmptyW reqW2) = true :=
  ⟨(searchHits_failure_aborts embedBadW storeEmptyW).1 "smart_casual top" 3 0 0 "top"
      (Or.inl ⟨"boom", rfl⟩),
   (searchHits_failure_aborts embedBadW storeEmptyW).2 reqW2
      ⟨"top", by decide, rfl⟩⟩

theorem runCompleteOutfit_nothing_missing_witness :
    runCompleteOutfit embedW storeEmptyW reqFullW
      = .ok ⟨(none : GoSlice String), some ([] : List SlotRecs)⟩ :=
  runCompleteOutfit_nothing_missing embedW storeEmptyW reqFullW (by decide)

theorem searchHits_similarity_witness :
    searchHits embedW storeOneW "q" 3 0 0 "top" = .ok (scanRows [rowW])
      ∧ (rowToHit rowW).similarity = simScore 1
      ∧ (rowToHit rowW).distance = roundCents 1
      ∧ (0 < simScore 1 ∧ simScore 1 ≤ 100)
      ∧ simScore 1 < simScore 0 :=
  have h := searchHits_similarity embedW storeOneW "q" 3 0 0 "top"
  have h1 := h.1 [1] [rowW] rfl rfl
  ⟨h1.1,
   (h1.2.2 rowW (List.mem_cons_self _ _)).1,
   (h1.2.2 rowW (List.mem_cons_self _ _)).2,
   h.2.1 1 (by decide),
   h.2.2 0 1 (by decide)⟩

theorem explainOutfit_allEmpty_fallback_witness :
    explainOutfitWithFallback chatBadW decodeNoneW decodeNoneW marshalW respEmptyW
      = .ok (fallbackExplain respEmptyW) :=
  explainOutfit_allEmpty_fallback chatBadW decodeNoneW decodeNoneW marshalW respEmptyW
    (by decide)

theorem explainOutfit_total_witness :
    isErr (explainOutfitWithFallback chatBadW decodeNoneW decodeNoneW marshalW respEmptyW)
        = false
      ∧ (1 ≤ (fallbackExplain respEmptyW).length
          ∧ (fallbackExplain respEmptyW).length ≤ 5)
      ∧ 2 ≤ (fallbackExplain respEmptyW).length :=
  have h := explainOutfit_total chatBadW decodeNoneW decodeNoneW marshalW respEmptyW
  ⟨h.1, h.2.1 (fallbackExplain respEmptyW) rfl, h.2.2.1⟩

theorem perSlotBudget_spec_witness :
    perSlotBudgetOf 90 2 = 45
      ∧ perSlotBudgetOf 0 2 = 0
      ∧ nullNum (perSlotBudgetOf 0 2) = none :=
  ⟨((perSlotBudget_spec 90 2).1 (by decide) (by decide)).trans (by norm_num),
   (perSlotBudget_spec 90 2).2.1,
   (perSlotBudget_spec 90 2).2.2⟩
